import Mathlib

/-!
Verification of the DormAxis authentication, session and risk-control core.

The definitions below are a shallow embedding of the JavaScript source:
  * `src/models/User.js`            — identity record, `incrementLoginAttempts`,
    `resetLoginAttempts`
  * `src/models/AuditLog.js`        — `Session` schema, `getActiveSessionCount`,
    `removeOldestSession`
  * `src/middleware/authMiddleware.js` — `SESSION_CONFIG`, `generateToken`,
    `createSession`
  * `src/controllers/authController.js` — `login`, `forgotPassword`,
    `verifyResetCode`, `resetPassword`
  * `src/controllers/mfaController.js`  — `verifyMFA`, `useBackupCode`
  * password validator (`validatePasswordComplexity`, `isPasswordExpired`)

Times are naturals counting milliseconds.  bcrypt is modelled as an injective
encoding (`bcryptHash`), so `bcryptCompare p h` succeeds exactly when `h` is
the hash of `p`: this captures a collision-free hash, which is the soundness
assumption the code makes about bcrypt.  JWTs signed with the server secret
are modelled by the `AuthToken` structure (forged tokens are out of scope);
`jwtVerifyOk` is the expiry check done by `jwt.verify`.  The external TOTP
verifier (`speakeasy.totp.verify`) is passed as an opaque boolean function.
-/

namespace DormAxis

/-- Model of bcrypt hashing: an injective encoding of the plaintext. -/
def bcryptHash (plain : String) : String := "bcrypt$" ++ plain

/-- Model of `bcrypt.compare`: succeeds exactly on the hashed plaintext. -/
def bcryptCompare (plain hash : String) : Bool := bcryptHash plain == hash

/-- A JWT signed with the server secret.  `typ` is the optional `type` field of
the payload (`some "mfa_pending"` for MFA challenge tokens, `none` for full
session tokens); `exp` is the absolute expiry in milliseconds. -/
structure AuthToken where
  userId : Nat
  typ : Option String
  exp : Nat
deriving Repr, DecidableEq

/-- `jwt.verify` succeeds while the token has not expired. -/
def jwtVerifyOk (t : AuthToken) (now : Nat) : Bool := now < t.exp

/-- `generateToken` (src/middleware/authMiddleware.js:123-127):
`jwt.sign({ id }, JWT_SECRET, { expiresIn: '8h' })` — a full session token,
with no `type` field. -/
def generateToken (uid : Nat) (now : Nat) : AuthToken :=
  { userId := uid, typ := none, exp := now + 28800000 }

/-- The MFA challenge token issued by `login`
(src/controllers/authController.js:388-392):
`jwt.sign({ id, type: 'mfa_pending' }, JWT_SECRET, { expiresIn: '5m' })`. -/
def mfaTempToken (uid : Nat) (now : Nat) : AuthToken :=
  { userId := uid, typ := some "mfa_pending", exp := now + 300000 }

/-- `loginAttempts` sub-document of the user schema (src/models/User.js:86-97). -/
structure LoginAttempts where
  count : Nat
  lastAttempt : Option Nat
  lockedUntil : Option Nat
deriving Repr, DecidableEq

/-- One `mfaBackupCodes` entry (src/models/User.js:59-68): a bcrypt hash and a
used flag. -/
structure BackupCode where
  code : String
  used : Bool
deriving Repr, DecidableEq

/-- The identity record (src/models/User.js), restricted to the fields the
authentication core reads or writes. -/
structure User where
  id : Nat
  email : String
  password : String
  isActive : Bool
  mfaEnabled : Bool
  mfaMethod : Option String
  mfaSecret : Option String
  mfaBackupCodes : List BackupCode
  loginAttempts : LoginAttempts
  passwordResetCode : Option String
  passwordResetExpires : Option Nat
  passwordChangedAt : Option Nat
  passwordExpiresAt : Option Nat
  mustChangePassword : Bool
  lastLogin : Option Nat
  lastLoginIP : Option String
  lastLoginUserAgent : Option String
deriving Repr, DecidableEq

/-- The lock-active test used by `login`
(src/controllers/authController.js:348): `lockedUntil && lockedUntil > new Date()`. -/
def lockActive (u : User) (now : Nat) : Bool :=
  match u.loginAttempts.lockedUntil with
  | some t => now < t
  | none => false

/-- The lock-elapsed test used by `incrementLoginAttempts`
(src/models/User.js:201): `lockedUntil && lockedUntil < new Date()`. -/
def lockElapsed (u : User) (now : Nat) : Bool :=
  match u.loginAttempts.lockedUntil with
  | some t => t < now
  | none => false

/-- `incrementLoginAttempts` (src/models/User.js:196-223).
`LOCK_TIME = 30 * 60 * 1000`, `MAX_ATTEMPTS = 5`.  If an existing lock has
elapsed the counter is reset to 1 and the lock cleared; otherwise the counter
is incremented and, when the post-increment count reaches `MAX_ATTEMPTS`, a
lock until `now + LOCK_TIME` is set. -/
def incrementLoginAttempts (u : User) (now : Nat) : User :=
  if lockElapsed u now then
    { u with loginAttempts := { count := 1, lastAttempt := some now, lockedUntil := none } }
  else
    { u with loginAttempts :=
      { count := u.loginAttempts.count + 1,
        lastAttempt := some now,
        lockedUntil :=
          if 5 ≤ u.loginAttempts.count + 1 then some (now + 1800000)
          else u.loginAttempts.lockedUntil } }

/-- `resetLoginAttempts` (src/models/User.js:226-236): zero the counter, stamp
`lastLogin`, clear the lock. -/
def resetLoginAttempts (u : User) (now : Nat) : User :=
  { u with
    loginAttempts :=
      { count := 0, lastAttempt := u.loginAttempts.lastAttempt, lockedUntil := none },
    lastLogin := some now }

/-! ## Password policy (password validator, `src/unnamed/part_008`, backed by
the password section of the security config: minLength 12, maxLength 128, all
four character classes required, symbols `!@#$%^&*()_+-=[]{}|;:,.<>?`). -/

/-- `securityConfig.password.minLength`. -/
def minLength : Nat := 12

/-- `securityConfig.password.maxLength`. -/
def maxLength : Nat := 128

/-- The allowed symbol set `securityConfig.password.symbols`. -/
def allowedSymbols : List Char := "!@#$%^&*()_+-=[]\x7b\x7d|;:,.<>?".data

/-- The configured symbol set as a string (for error messages). -/
def symbolsStr : String := String.mk allowedSymbols

/-- Regex `/[A-Z]/`. -/
def hasUppercase (p : String) : Bool := p.data.any fun c => 'A' ≤ c && c ≤ 'Z'

/-- Regex `/[a-z]/`. -/
def hasLowercase (p : String) : Bool := p.data.any fun c => 'a' ≤ c && c ≤ 'z'

/-- Regex `/\d/`. -/
def hasDigitChar (p : String) : Bool := p.data.any fun c => '0' ≤ c && c ≤ '9'

/-- The symbol character class built from the configured symbol set. -/
def hasSymbol (p : String) : Bool := p.data.any fun c => allowedSymbols.contains c

/-- Regex `/^(.)\1+$/`: the whole password is one character repeated (length ≥ 2). -/
def isRepeatedChar (p : String) : Bool :=
  match p.data with
  | [] => false
  | [_] => false
  | c :: rest => rest.all (· == c)

/-- Splits a character list into consecutive blocks of three; `none` when the
length is not a multiple of three. -/
def chunks3 : List Char → Option (List (List Char))
  | [] => some []
  | a :: b :: c :: rest => (chunks3 rest).map fun ls => [a, b, c] :: ls
  | _ => none

/-- The alternatives of `/^(012|123|234|345|456|567|678|789|890)+$/`. -/
def numericRuns : List (List Char) :=
  ["012", "123", "234", "345", "456", "567", "678", "789", "890"].map String.data

/-- The alternatives of the sequential-letters pattern `abc | bcd | … | xyz`. -/
def alphaRuns : List (List Char) :=
  ["abc", "bcd", "cde", "def", "efg", "fgh", "ghi", "hij", "ijk", "jkl",
   "klm", "lmn", "mno", "nop", "opq", "pqr", "qrs", "rst", "stu", "tuv",
   "uvw", "vwx", "wxy", "xyz"].map String.data

/-- A full-string anchored match `^(alt)+$` where every alternative has length
three: the string is nonempty and splits into three-character blocks drawn
from `runs`. -/
def matchesRun (runs : List (List Char)) (p : List Char) : Bool :=
  !p.isEmpty &&
    (match chunks3 p with
     | some blocks => blocks.all fun b => runs.contains b
     | none => false)

/-- Regex `/^(012|123|…|890)+$/`. -/
def isSequentialNumbers (p : String) : Bool := matchesRun numericRuns p.data

/-- Regex `/^(abc|bcd|…|xyz)+$/i`. -/
def isSequentialLetters (p : String) : Bool :=
  matchesRun alphaRuns (p.data.map Char.toLower)

/-- Whether `pre` is a prefix of `l`. -/
def prefixEq : List Char → List Char → Bool
  | [], _ => true
  | _ :: _, [] => false
  | a :: asc, b :: bs => a == b && prefixEq asc bs

/-- Whether `needle` occurs as a contiguous substring of `hay`. -/
def hasSubstr (needle : List Char) : List Char → Bool
  | [] => needle.isEmpty
  | c :: rest => prefixEq needle (c :: rest) || hasSubstr needle rest

/-- An unanchored case-insensitive substring pattern such as `/password/i`. -/
def containsCI (needle : String) (p : String) : Bool :=
  hasSubstr (needle.data.map Char.toLower) (p.data.map Char.toLower)

/-- Whether any entry of the `weakPatterns` array matches
(src/unnamed/part_008:61-78).  The source breaks on the first match, pushing
one error and applying the −1 penalty once; a disjunction captures that. -/
def hasWeakPattern (p : String) : Bool :=
  isRepeatedChar p || isSequentialNumbers p || isSequentialLetters p ||
    containsCI "password" p || containsCI "qwerty" p || containsCI "admin" p ||
    containsCI "user" p || containsCI "login" p

/-- Result of `validatePasswordComplexity`.  `strength` is the normalized
score in `[0,4]`; `strengthHalves` is the raw accumulator scaled by two, so
that the source's `0.5` steps stay in ℕ (every increment in the source is a
multiple of 0.5, which binary floats represent exactly). -/
structure PasswordValidation where
  isValid : Bool
  errors : List String
  strength : Nat
  strengthLabel : String
deriving Repr, DecidableEq

/-- `securityConfig.strengthLevels` labels, indexed by the normalized score. -/
def strengthLabels : List String :=
  ["Very Weak", "Weak", "Fair", "Strong", "Very Strong"]

/-- `validatePasswordComplexity` (src/unnamed/part_008:15-94), with the
strength accumulator kept in half-points.  In source order: +1 when the
minimum length is met, +1 for uppercase, +0.5 for lowercase, +1 for a digit,
+1 for a symbol, then `strength = max(0, strength − 1)` when a weak pattern
matched, then +0.5 when the length is at least 16, and finally
`min(4, max(0, floor))`. -/
def validatePasswordComplexity (password : String) : PasswordValidation :=
  let lenOk := minLength ≤ password.length
  let errs0 := if lenOk then [] else
    [s!"Password must be at least {minLength} characters long"]
  let s0 : Nat := if lenOk then 2 else 0
  let errs1 := errs0 ++ (if maxLength < password.length then
    [s!"Password must not exceed {maxLength} characters"] else [])
  let errs2 := errs1 ++ (if hasUppercase password then [] else
    ["Password must contain at least one uppercase letter"])
  let s1 := s0 + (if hasUppercase password then 2 else 0)
  let errs3 := errs2 ++ (if hasLowercase password then [] else
    ["Password must contain at least one lowercase letter"])
  let s2 := s1 + (if hasLowercase password then 1 else 0)
  let errs4 := errs3 ++ (if hasDigitChar password then [] else
    ["Password must contain at least one number"])
  let s3 := s2 + (if hasDigitChar password then 2 else 0)
  let errs5 := errs4 ++ (if hasSymbol password then [] else
    [s!"Password must contain at least one special character ({symbolsStr})"])
  let s4 := s3 + (if hasSymbol password then 2 else 0)
  let errs6 := errs5 ++ (if hasWeakPattern password then
    ["Password contains a common weak pattern"] else [])
  let s5 := if hasWeakPattern password then s4 - 2 else s4
  let s6 := s5 + (if 16 ≤ password.length then 1 else 0)
  let normalized := min 4 (s6 / 2)
  { isValid := errs6.isEmpty,
    errors := errs6,
    strength := normalized,
    strengthLabel := strengthLabels.getD normalized "Unknown" }

/-- `ceil(a / b)` for integers, `b > 0` (`Math.ceil` of a JS float division). -/
def ceilDiv (a b : Int) : Int := -((-a).fdiv b)

/-- Result of `isPasswordExpired`. -/
structure ExpiryStatus where
  isExpired : Bool
  daysUntilExpiry : Option Int
  shouldWarn : Bool
deriving Repr, DecidableEq

/-- `isPasswordExpired` (src/unnamed/part_008:103-118): day difference by
ceiling division of the millisecond difference; warn inside the 14-day
window. -/
def isPasswordExpired (expiresAt : Option Nat) (now : Nat) : ExpiryStatus :=
  match expiresAt with
  | none => { isExpired := false, daysUntilExpiry := none, shouldWarn := false }
  | some e =>
    let diffDays : Int := ceilDiv ((e : Int) - (now : Int)) 86400000
    { isExpired := decide (diffDays ≤ 0),
      daysUntilExpiry := some (max 0 diffDays),
      shouldWarn := decide (0 < diffDays ∧ diffDays ≤ 14) }

/-- `calculatePasswordExpiry` (src/unnamed/part_008:124-128): 90 calendar
days ahead, modelled as 90 days of milliseconds. -/
def calculatePasswordExpiry (now : Nat) : Nat := now + 90 * 86400000

/-! ## Session store (`Session` schema and statics in src/models/AuditLog.js
concatenation, lines 67-159; `SESSION_CONFIG` and `createSession` in
src/middleware/authMiddleware.js). -/

/-- `SESSION_CONFIG.idleTimeout`: 15 minutes in milliseconds. -/
def idleTimeout : Nat := 900000

/-- `SESSION_CONFIG.maxSession`: 8 hours in milliseconds. -/
def maxSession : Nat := 28800000

/-- `SESSION_CONFIG.maxConcurrentSessions`. -/
def maxConcurrentSessions : Nat := 3

/-- A session document (`sessionSchema`). -/
structure Session where
  userId : Nat
  token : AuthToken
  userAgent : String
  ipAddress : String
  lastActivity : Nat
  createdAt : Nat
  expiresAt : Nat
deriving Repr, DecidableEq

/-- The activity predicate of `getActiveSessionCount`: last activity strictly
within the 15-minute idle window (`lastActivity > now − idleTimeout`) and
strictly before the absolute expiry (`expiresAt > now`). -/
def sessionActive (s : Session) (now : Nat) : Bool :=
  now < s.lastActivity + idleTimeout && now < s.expiresAt

/-- `Session.getActiveSessionCount` (session schema statics): count the
user's sessions that satisfy the activity predicate. -/
def getActiveSessionCount (sessions : List Session) (uid : Nat) (now : Nat) : Nat :=
  (sessions.filter fun s => s.userId == uid && sessionActive s now).length

/-- Keep the session created earlier; on a tie the earlier one in store
order wins (`findOne().sort({ createdAt: 1 })`). -/
def olderOf (a b : Session) : Session := if b.createdAt < a.createdAt then b else a

/-- The user's oldest-by-creation session, over ALL of the user's sessions —
the query in `removeOldestSession` filters only on `userId`, not on
activity. -/
def oldestSession (sessions : List Session) (uid : Nat) : Option Session :=
  match sessions.filter (fun s => s.userId == uid) with
  | [] => none
  | s :: rest => some (rest.foldl olderOf s)

/-- `Session.removeOldestSession`: delete the user's oldest session, if any. -/
def removeOldestSession (sessions : List Session) (uid : Nat) : List Session :=
  match oldestSession sessions uid with
  | none => sessions
  | some s => sessions.erase s

/-- The session document inserted by `createSession`. -/
def newSessionRecord (uid : Nat) (agent ip : String) (now : Nat) : Session :=
  { userId := uid, token := generateToken uid now, userAgent := agent,
    ipAddress := ip, lastActivity := now, createdAt := now,
    expiresAt := now + maxSession }

/-- `createSession` (src/middleware/authMiddleware.js:132-157): when the
active-session count has reached the cap, remove the user's oldest session,
then insert the new one. -/
def createSession (sessions : List Session) (uid : Nat) (agent ip : String)
    (now : Nat) : AuthToken × List Session :=
  let activeCount := getActiveSessionCount sessions uid now
  let sessions1 :=
    if maxConcurrentSessions ≤ activeCount then removeOldestSession sessions uid
    else sessions
  (generateToken uid now, sessions1 ++ [newSessionRecord uid agent ip now])

/-! ## Login (`src/controllers/authController.js:326-460`).  The caller's
`User.findOne({ email })` result is passed as `user?`; the updated identity
record and session store are returned alongside the HTTP outcome. -/

/-- The observable HTTP outcome of a login request: rejection status and body
fields, MFA challenge, or a full session. -/
inductive LoginOutcome where
  | rejected (status : Nat) (error : String) (warning : Option String)
      (lockedUntil : Option Nat)
  | mfaRequired (tempToken : AuthToken) (mfaMethod : String)
  | success (token : AuthToken) (passwordExpired : Bool)
      (expiryWarnDays : Option Int) (mustChangePassword : Bool)
deriving Repr, DecidableEq

/-- Remaining lock time in minutes:
`Math.ceil((lockedUntil - now) / 60000)` with `now < lockedUntil`. -/
def remainingLockMinutes (lockedUntil now : Nat) : Nat :=
  (lockedUntil - now + 59999) / 60000

/-- The 423 response of the lock branch
(src/controllers/authController.js:348-355). -/
def lockedResponse (lockedUntil now : Nat) : LoginOutcome :=
  let m := remainingLockMinutes lockedUntil now
  .rejected 423 s!"Account is locked. Try again in {m} minutes" none
    (some lockedUntil)

/-- The conditional remaining-attempts warning attached to a wrong-password
response (src/controllers/authController.js:371-378), computed from the count
as loaded (the `updateOne` inside `incrementLoginAttempts` does not refresh
the in-memory document). -/
def attemptsWarning (count : Nat) : Option String :=
  let attemptsLeft : Int := 5 - ((count : Int) + 1)
  if 0 < attemptsLeft ∧ attemptsLeft ≤ 3 then
    some s!"{attemptsLeft} attempt(s) remaining before account lockout"
  else none

/-- `login` (src/controllers/authController.js:326-460).  In source order:
unknown email → 401 "Invalid credentials"; active lock → 423 with remaining
minutes; deactivated account → 401; wrong password → increment the failure
counter and answer 401 "Invalid credentials" with the optional warning; on a
correct password reset the failure counter, then either issue a 5-minute
`mfa_pending` challenge token (no session) or create a session and stamp the
last-login metadata. -/
def login (user? : Option User) (password : String) (now : Nat)
    (ip agent : String) (sessions : List Session) :
    LoginOutcome × Option User × List Session :=
  match user? with
  | none => (.rejected 401 "Invalid credentials" none none, none, sessions)
  | some u =>
    if lockActive u now then
      (lockedResponse (u.loginAttempts.lockedUntil.getD 0) now, some u, sessions)
    else if !u.isActive then
      (.rejected 401 "Account is deactivated. Please contact support." none none,
       some u, sessions)
    else if !bcryptCompare password u.password then
      (.rejected 401 "Invalid credentials" (attemptsWarning u.loginAttempts.count) none,
       some (incrementLoginAttempts u now), sessions)
    else
      let u1 := resetLoginAttempts u now
      if u.mfaEnabled then
        (.mfaRequired (mfaTempToken u.id now) (u.mfaMethod.getD "totp"),
         some u1, sessions)
      else
        let u2 := { u1 with lastLogin := some now, lastLoginIP := some ip,
                            lastLoginUserAgent := some agent }
        let expiryStatus := isPasswordExpired u.passwordExpiresAt now
        let res := createSession sessions u.id agent ip now
        (.success res.1 expiryStatus.isExpired
          (if expiryStatus.shouldWarn then expiryStatus.daysUntilExpiry else none)
          u.mustChangePassword,
         some u2, res.2)

/-! ## MFA challenge verification (`src/controllers/mfaController.js`).
The `User.findById(decoded.id)` lookup result is passed as `user?`; the TOTP
verifier (`speakeasy.totp.verify` with a ±1 step window) is an opaque boolean
function of the stored secret and the submitted code. -/

/-- The observable HTTP outcome of `verifyMFA` / `useBackupCode`. -/
inductive MfaOutcome where
  | rejected (status : Nat) (error : String)
  | granted (token : AuthToken) (remainingBackupCodes : Option Nat)
      (warning : Option String)
deriving Repr, DecidableEq

/-- Whether the outcome carries a full session grant. -/
def MfaOutcome.isGranted : MfaOutcome → Bool
  | .granted _ _ _ => true
  | .rejected _ _ => false

/-- `verifyMFA` (src/controllers/mfaController.js:124-205).  The temp token is
decoded with `jwt.verify` (expiry only — the payload's `type` field is never
inspected); then the user is loaded, `mfaEnabled` is checked, the TOTP code is
verified, and on success a full session is created. -/
def verifyMFA (tempToken : AuthToken) (mfaCode : String) (now : Nat)
    (user? : Option User) (totpVerify : String → String → Bool)
    (ip agent : String) (sessions : List Session) :
    MfaOutcome × Option User × List Session :=
  if !jwtVerifyOk tempToken now then
    (.rejected 401 "Invalid or expired temporary token", user?, sessions)
  else
    match user? with
    | none => (.rejected 400 "MFA not enabled for this user", none, sessions)
    | some u =>
      if !u.mfaEnabled then
        (.rejected 400 "MFA not enabled for this user", some u, sessions)
      else if !totpVerify (u.mfaSecret.getD "") mfaCode then
        (.rejected 401 "Invalid MFA code", some u, sessions)
      else
        let res := createSession sessions u.id agent ip now
        (.granted res.1 none none, some u, res.2)

/-- ASCII uppercasing of one character (`String.prototype.toUpperCase` on the
alphanumeric backup-code alphabet). -/
def charUpper (c : Char) : Char :=
  if 'a' ≤ c ∧ c ≤ 'z' then Char.ofNat (c.toNat - 32) else c

/-- `backupCode.toUpperCase()`. -/
def strToUpper (s : String) : String := String.mk (s.data.map charUpper)

/-- The backup-code search loop (src/controllers/mfaController.js:250-261):
walk the stored codes in order; skip entries already marked used; compare the
uppercased input against each unused hash; mark the first match used and
stop.  `none` when no unused entry matches. -/
def markFirstMatch (input : String) : List BackupCode → Option (List BackupCode)
  | [] => none
  | b :: rest =>
    if !b.used && bcryptCompare (strToUpper input) b.code then
      some ({ b with used := true } :: rest)
    else
      match markFirstMatch input rest with
      | some rest' => some (b :: rest')
      | none => none

/-- `useBackupCode` (src/controllers/mfaController.js:211-304): decode the
temp token (expiry only), load the user, check `mfaEnabled`, search the
backup codes; no match → 401; a match is marked used, the user saved, a
session created, and a low-remaining-codes advisory attached when fewer than
three unused codes remain. -/
def useBackupCode (tempToken : AuthToken) (backupCode : String) (now : Nat)
    (user? : Option User) (ip agent : String) (sessions : List Session) :
    MfaOutcome × Option User × List Session :=
  if !jwtVerifyOk tempToken now then
    (.rejected 401 "Invalid or expired temporary token", user?, sessions)
  else
    match user? with
    | none => (.rejected 400 "MFA not enabled for this user", none, sessions)
    | some u =>
      if !u.mfaEnabled then
        (.rejected 400 "MFA not enabled for this user", some u, sessions)
      else
        match markFirstMatch backupCode u.mfaBackupCodes with
        | none =>
          (.rejected 401 "Invalid or already used backup code", some u, sessions)
        | some codes' =>
          let u' := { u with mfaBackupCodes := codes' }
          let res := createSession sessions u.id agent ip now
          let remaining := (codes'.filter fun c => !c.used).length
          (.granted res.1 (some remaining)
            (if remaining < 3 then
              some "You have few backup codes left. Consider generating new ones."
             else none),
           some u', res.2)

/-! ## Password reset flows (`src/controllers/authController.js`).  The email
collaborator is represented by the boolean `emailOk` (whether
`sendPasswordResetCode` resolved); the random 6-digit code and the fresh
32-byte reset token are passed in as the values drawn from the secure random
source. -/

/-- The observable outcome of `forgotPassword`. -/
inductive ForgotOutcome where
  | ok (message : String)
  | emailFailed (status : Nat) (error : String)
deriving Repr, DecidableEq

/-- `forgotPassword` (src/controllers/authController.js:87-161): unknown or
inactive accounts get the generic success; otherwise the hashed code and a
15-minute expiry are stored, the email is sent, and on a send failure the
reset fields are cleared again before the 500 response. -/
def forgotPassword (user? : Option User) (resetCode : String) (emailOk : Bool)
    (now : Nat) : ForgotOutcome × Option User :=
  match user? with
  | none =>
    (.ok "If an account with that email exists, a verification code has been sent.",
     none)
  | some u =>
    if !u.isActive then
      (.ok "If an account with that email exists, a verification code has been sent.",
       some u)
    else
      let u1 := { u with passwordResetCode := some (bcryptHash resetCode),
                         passwordResetExpires := some (now + 900000) }
      if emailOk then
        (.ok "Verification code sent to your email", some u1)
      else
        (.emailFailed 500 "Failed to send verification code. Please try again.",
         some { u1 with passwordResetCode := none, passwordResetExpires := none })

/-- The observable outcome of `verifyResetCode`. -/
inductive VerifyOutcome where
  | rejected (status : Nat) (error : String)
  | verified (resetToken : String)
deriving Repr, DecidableEq

/-- Whether the outcome handed out a reset token. -/
def VerifyOutcome.isVerified : VerifyOutcome → Bool
  | .verified _ => true
  | .rejected _ _ => false

/-- `verifyResetCode` (src/controllers/authController.js:167-232): missing
reset state → 400; expired → clear the fields and 400; wrong code → 400; on a
match, a fresh random token is generated and its hash overwrites the stored
reset-code hash with a 10-minute expiry. -/
def verifyResetCode (user? : Option User) (code : String) (now : Nat)
    (freshToken : String) : VerifyOutcome × Option User :=
  match user? with
  | none => (.rejected 400 "Invalid or expired verification code", none)
  | some u =>
    match u.passwordResetCode, u.passwordResetExpires with
    | some stored, some expiry =>
      if expiry < now then
        (.rejected 400 "Verification code has expired. Please request a new one.",
         some { u with passwordResetCode := none, passwordResetExpires := none })
      else if !bcryptCompare code stored then
        (.rejected 400 "Invalid verification code", some u)
      else
        (.verified freshToken,
         some { u with passwordResetCode := some (bcryptHash freshToken),
                       passwordResetExpires := some (now + 600000) })
    | _, _ => (.rejected 400 "Invalid or expired verification code", some u)

/-- The observable outcome of `resetPassword`. -/
inductive ResetPwOutcome where
  | rejected (status : Nat) (error : String)
  | done (message : String)
deriving Repr, DecidableEq

/-- Whether the password was actually reset. -/
def ResetPwOutcome.isDone : ResetPwOutcome → Bool
  | .done _ => true
  | .rejected _ _ => false

/-- `resetPassword` (src/controllers/authController.js:238-320): complexity
check first, then the stored reset state, expiry and token comparison; on
success the password is replaced, the reset fields cleared, the password
timestamps refreshed, and `loginAttempts` replaced by `{ count: 0 }`. -/
def resetPassword (user? : Option User) (resetToken newPassword : String)
    (now : Nat) : ResetPwOutcome × Option User :=
  if !(validatePasswordComplexity newPassword).isValid then
    (.rejected 400 "Password does not meet security requirements", user?)
  else
    match user? with
    | none => (.rejected 400 "Invalid or expired reset session", none)
    | some u =>
      match u.passwordResetCode, u.passwordResetExpires with
      | some stored, some expiry =>
        if expiry < now then
          (.rejected 400 "Reset session has expired. Please start over.",
           some { u with passwordResetCode := none, passwordResetExpires := none })
        else if !bcryptCompare resetToken stored then
          (.rejected 400 "Invalid reset token", some u)
        else
          (.done "Password reset successfully. You can now log in with your new password.",
           some { u with password := bcryptHash newPassword,
                         passwordResetCode := none,
                         passwordResetExpires := none,
                         passwordChangedAt := some now,
                         passwordExpiresAt := some (calculatePasswordExpiry now),
                         mustChangePassword := false,
                         loginAttempts := { count := 0, lastAttempt := none,
                                            lockedUntil := none } })
      | _, _ => (.rejected 400 "Invalid or expired reset session", some u)

/-! ## Spec-side strength formulas (for the refinement comparison of the
strength score).  Scores are kept in half-points like the implementation. -/

/-- The strength formula exactly as the spec states it: +1 for each of digit,
uppercase and symbol, +0.5 for lowercase, +0.5 bonus when the length is at
least 16, −1 (floored at 0) when a weak pattern matched, floored to an
integer clamped to `[0,4]`.  This follows the spec's words, NOT the source. -/
def specStrengthScore (p : String) : Nat :=
  let halves :=
    (if hasDigitChar p then 2 else 0) + (if hasUppercase p then 2 else 0) +
    (if hasSymbol p then 2 else 0) + (if hasLowercase p then 1 else 0) +
    (if 16 ≤ p.length then 1 else 0)
  let afterPenalty := if hasWeakPattern p then halves - 2 else halves
  min 4 (afterPenalty / 2)

/-- The amended formula: the spec formula plus one further point when the
minimum-length requirement (12 characters) is met, with the weak-pattern
penalty applied (floored at 0) before the length-16 bonus is added. -/
def amendedStrengthScore (p : String) : Nat :=
  let base :=
    (if hasDigitChar p then 2 else 0) + (if hasUppercase p then 2 else 0) +
    (if hasSymbol p then 2 else 0) + (if hasLowercase p then 1 else 0) +
    (if minLength ≤ p.length then 2 else 0)
  let afterPenalty := if hasWeakPattern p then base - 2 else base
  min 4 ((afterPenalty + (if 16 ≤ p.length then 1 else 0)) / 2)

/-- C6 counterexample: `"Zz9!aaaaaaaa"` (12 characters, all four classes, no
weak pattern) scores 4 in the implementation — the met minimum-length
requirement contributes a point the spec formula lacks — while the spec
formula yields 3. -/
theorem strength_score_differs_from_spec_formula :
    (validatePasswordComplexity "Zz9!aaaaaaaa").strength = 4 ∧
      specStrengthScore "Zz9!aaaaaaaa" = 3 := by
  constructor <;> rfl

/-- C6 (amended): for every password, the strength score returned by
`validatePasswordComplexity` equals the spec formula extended with +1 for a
met minimum-length requirement, the weak-pattern penalty being applied
(floored at 0) before the length-16 bonus. -/
theorem strength_score_eq_amended_formula (p : String) :
    (validatePasswordComplexity p).strength = amendedStrengthScore p := by
  simp only [validatePasswordComplexity, amendedStrengthScore]
  split_ifs <;> simp_arith

/-- C6 witness: the amended formula agrees with the evaluator on the spec's
own sample password. -/
theorem strength_score_eq_amended_formula_witness :
    (validatePasswordComplexity "Correct123!Horse").strength =
      amendedStrengthScore "Correct123!Horse" :=
  strength_score_eq_amended_formula "Correct123!Horse"

/-! ## Concrete records used by witnesses and counterexamples. -/

/-- A baseline identity record; witnesses adjust individual fields. -/
def baseUser : User :=
  { id := 1, email := "student@dormaxis.test",
    password := bcryptHash "Correct123!Horse", isActive := true,
    mfaEnabled := false, mfaMethod := none, mfaSecret := none,
    mfaBackupCodes := [],
    loginAttempts := { count := 0, lastAttempt := none, lockedUntil := none },
    passwordResetCode := none, passwordResetExpires := none,
    passwordChangedAt := none, passwordExpiresAt := none,
    mustChangePassword := false, lastLogin := none, lastLoginIP := none,
    lastLoginUserAgent := none }

/-- C1: for an identity with no active lock, a failed password attempt stores
`incrementLoginAttempts`; that update resets the counter to 1 and clears the
lock when a previous lock has elapsed, and otherwise increments the counter,
setting a 30-minute lock exactly when the post-increment count reaches 5;
and while a lock is active every login attempt is answered with the 423
lockout response, whatever the password. -/
theorem failed_attempts_lockout_lifecycle :
    (∀ (u : User) (pw : String) (now : Nat) (ip ag : String) (ss : List Session),
      lockActive u now = false → u.isActive = true →
      bcryptCompare pw u.password = false →
      (login (some u) pw now ip ag ss).2.1 = some (incrementLoginAttempts u now)) ∧
    (∀ (u : User) (now : Nat), lockActive u now = false →
      (lockElapsed u now = true →
        incrementLoginAttempts u now =
          { u with loginAttempts :=
            { count := 1, lastAttempt := some now, lockedUntil := none } }) ∧
      (lockElapsed u now = false →
        incrementLoginAttempts u now =
          { u with loginAttempts :=
            { count := u.loginAttempts.count + 1, lastAttempt := some now,
              lockedUntil :=
                if 5 ≤ u.loginAttempts.count + 1 then some (now + 1800000)
                else u.loginAttempts.lockedUntil } })) ∧
    (∀ (u : User) (pw : String) (now t : Nat) (ip ag : String) (ss : List Session),
      u.loginAttempts.lockedUntil = some t → now < t →
      login (some u) pw now ip ag ss = (lockedResponse t now, some u, ss)) := by
  refine ⟨?_, ?_, ?_⟩
  · intro u pw now ip ag ss hlock hact hcmp
    simp [login, hlock, hact, hcmp]
  · intro u now _
    constructor
    · intro helapsed
      simp [incrementLoginAttempts, helapsed]
    · intro helapsed
      simp [incrementLoginAttempts, helapsed]
  · intro u pw now t ip ag ss hsome hlt
    have hlock : lockActive u now = true := by
      simp [lockActive, hsome, hlt]
    simp [login, hlock, hsome]

/-- C1 witness: with 4 prior failures a 5th wrong password sets the 30-minute
lock, and a locked account rejects even the correct password with the 423
response. -/
theorem failed_attempts_lockout_lifecycle_witness :
    ((login (some { baseUser with loginAttempts :=
        { count := 4, lastAttempt := none, lockedUntil := none } })
        "WrongPass" 1000 "ip" "ag" []).2.1 =
      some (incrementLoginAttempts { baseUser with loginAttempts :=
        { count := 4, lastAttempt := none, lockedUntil := none } } 1000)) ∧
    (incrementLoginAttempts { baseUser with loginAttempts :=
        { count := 4, lastAttempt := none, lockedUntil := none } } 1000 =
      { baseUser with loginAttempts :=
        { count := 4 + 1, lastAttempt := some 1000,
          lockedUntil := if 5 ≤ 4 + 1 then some (1000 + 1800000) else none } }) ∧
    (login (some { baseUser with loginAttempts :=
        { count := 5, lastAttempt := none, lockedUntil := some 2000 } })
        "Correct123!Horse" 1000 "ip" "ag" [] =
      (lockedResponse 2000 1000,
       some { baseUser with loginAttempts :=
        { count := 5, lastAttempt := none, lockedUntil := some 2000 } }, [])) :=
  ⟨failed_attempts_lockout_lifecycle.1 _ "WrongPass" 1000 "ip" "ag" []
      (by decide) (by decide) (by decide),
   (failed_attempts_lockout_lifecycle.2.1 _ 1000 (by decide)).2 (by decide),
   failed_attempts_lockout_lifecycle.2.2 _ "Correct123!Horse" 1000 2000 "ip" "ag" []
      rfl (by decide)⟩

/-- C9: while an account lock is active, a login attempt returns the lockout
rejection without touching the identity record or the session store, and the
whole result is independent of the password supplied (so no password
verification influences it). -/
theorem locked_login_is_pure_rejection :
    ∀ (u : User) (pw pw' : String) (now t : Nat) (ip ag : String)
      (ss : List Session),
      u.loginAttempts.lockedUntil = some t → now < t →
      login (some u) pw now ip ag ss = (lockedResponse t now, some u, ss) ∧
      login (some u) pw now ip ag ss = login (some u) pw' now ip ag ss := by
  intro u pw pw' now t ip ag ss hsome hlt
  have hlock : lockActive u now = true := by simp [lockActive, hsome, hlt]
  constructor
  · simp [login, hlock, hsome]
  · simp [login, hlock]

/-- C9 witness: a locked account rejects both the correct and a wrong
password with the same pure lockout response. -/
theorem locked_login_is_pure_rejection_witness :
    (login (some { baseUser with loginAttempts :=
        { count := 5, lastAttempt := none, lockedUntil := some 900001 } })
        "Correct123!Horse" 1 "ip" "ag" [] =
      (lockedResponse 900001 1,
       some { baseUser with loginAttempts :=
        { count := 5, lastAttempt := none, lockedUntil := some 900001 } }, [])) ∧
    (login (some { baseUser with loginAttempts :=
        { count := 5, lastAttempt := none, lockedUntil := some 900001 } })
        "Correct123!Horse" 1 "ip" "ag" [] =
      login (some { baseUser with loginAttempts :=
        { count := 5, lastAttempt := none, lockedUntil := some 900001 } })
        "TotallyWrong" 1 "ip" "ag" []) :=
  locked_login_is_pure_rejection _ "Correct123!Horse" "TotallyWrong" 1 900001
    "ip" "ag" [] rfl (by decide)

/-- C3: with MFA enabled, a login with the correct password resets the
failure counter and stops with a single-purpose `mfa_pending` challenge token
expiring five minutes after issuance; no session is created and no session
token is returned. -/
theorem mfa_login_issues_challenge_only :
    ∀ (u : User) (pw : String) (now : Nat) (ip ag : String) (ss : List Session),
      u.mfaEnabled = true → lockActive u now = false → u.isActive = true →
      bcryptCompare pw u.password = true →
      login (some u) pw now ip ag ss =
        (.mfaRequired (mfaTempToken u.id now) (u.mfaMethod.getD "totp"),
         some (resetLoginAttempts u now), ss) ∧
      (mfaTempToken u.id now).typ = some "mfa_pending" ∧
      (mfaTempToken u.id now).exp = now + 300000 := by
  intro u pw now ip ag ss hmfa hlock hact hcmp
  refine ⟨?_, rfl, rfl⟩
  simp [login, hlock, hact, hcmp, hmfa]

/-- C3 witness: a concrete MFA-enabled identity logging in with its correct
password receives only the five-minute challenge token. -/
theorem mfa_login_issues_challenge_only_witness :
    (login (some { baseUser with mfaEnabled := true })
        "Correct123!Horse" 500 "ip" "ag" [] =
      (.mfaRequired (mfaTempToken ({ baseUser with mfaEnabled := true } : User).id 500)
        (({ baseUser with mfaEnabled := true } : User).mfaMethod.getD "totp"),
       some (resetLoginAttempts { baseUser with mfaEnabled := true } 500), [])) ∧
    (mfaTempToken ({ baseUser with mfaEnabled := true } : User).id 500).typ =
      some "mfa_pending" ∧
    (mfaTempToken ({ baseUser with mfaEnabled := true } : User).id 500).exp =
      500 + 300000 :=
  mfa_login_issues_challenge_only _ "Correct123!Horse" 500 "ip" "ag" []
    rfl (by decide) rfl (by decide)

/-- C7 counterexample: for an unlocked active account with 2 prior failures,
the wrong-password rejection carries a remaining-attempts warning in its
body, so it differs from the unknown-email rejection. -/
theorem wrong_password_response_can_carry_warning :
    (login (some { baseUser with loginAttempts :=
        { count := 2, lastAttempt := none, lockedUntil := none } })
        "WrongPass" 1000 "ip" "ag" []).1 ≠
      (login none "WrongPass" 1000 "ip" "ag" []).1 := by
  decide

/-- C7 (amended): unknown email and wrong password are both answered with
status 401 and error "Invalid credentials", so the error message never
distinguishes them; the full bodies coincide exactly when no
remaining-attempts warning is due (no recorded failure yet, or the counter
already at 4 or beyond) — with 1–3 attempts left before lockout the
wrong-password body additionally carries a warning field. -/
theorem invalid_credentials_uniform_modulo_warning :
    ∀ (u : User) (pw : String) (now : Nat) (ip ag : String) (ss : List Session),
      u.isActive = true → lockActive u now = false →
      bcryptCompare pw u.password = false →
      (login (some u) pw now ip ag ss).1 =
        .rejected 401 "Invalid credentials" (attemptsWarning u.loginAttempts.count) none ∧
      (login none pw now ip ag ss).1 =
        .rejected 401 "Invalid credentials" none none ∧
      ((login (some u) pw now ip ag ss).1 = (login none pw now ip ag ss).1 ↔
        attemptsWarning u.loginAttempts.count = none) := by
  intro u pw now ip ag ss hact hlock hcmp
  refine ⟨by simp [login, hlock, hact, hcmp], rfl, ?_⟩
  simp [login, hlock, hact, hcmp]

/-- C7 witness: with no recorded failures the two rejections are identical. -/
theorem invalid_credentials_uniform_modulo_warning_witness :
    ((login (some baseUser) "WrongPass" 1000 "ip" "ag" []).1 =
      .rejected 401 "Invalid credentials" (attemptsWarning baseUser.loginAttempts.count) none) ∧
    ((login none "WrongPass" 1000 "ip" "ag" []).1 =
      .rejected 401 "Invalid credentials" none none) ∧
    ((login (some baseUser) "WrongPass" 1000 "ip" "ag" []).1 =
      (login none "WrongPass" 1000 "ip" "ag" []).1 ↔
      attemptsWarning baseUser.loginAttempts.count = none) :=
  invalid_credentials_uniform_modulo_warning baseUser "WrongPass" 1000 "ip" "ag" []
    rfl (by decide) (by decide)

/-- C8 counterexample: when the account already held a pending reset code, the
email-failure path clears the fields instead of restoring them, so the stored
reset state after the failed call differs from the state before it. -/
theorem forgot_password_failure_state_not_prior_state :
    (forgotPassword
        (some { baseUser with passwordResetCode := some (bcryptHash "111111"),
                              passwordResetExpires := some 999999 })
        "222222" false 5).2 ≠
      some { baseUser with passwordResetCode := some (bcryptHash "111111"),
                           passwordResetExpires := some 999999 } := by
  decide

/-- C8 (amended): when the reset-code email fails to send, the stored reset
code and expiry are cleared — set to absent, not restored to their previous
values — before the 500 response is returned, every other field of the
identity being untouched; hence no identity is left holding an active reset
code it was not notified of, and the post-state equals the pre-state exactly
when no reset code was pending before the call. -/
theorem forgot_password_email_failure_clears_reset_state :
    ∀ (u : User) (code : String) (now : Nat), u.isActive = true →
      forgotPassword (some u) code false now =
        (.emailFailed 500 "Failed to send verification code. Please try again.",
         some { u with passwordResetCode := none, passwordResetExpires := none }) := by
  intro u code now hact
  simp [forgotPassword, hact]

/-- C8 witness: the email-failure path on a concrete active account returns
the 500 response with the reset fields cleared. -/
theorem forgot_password_email_failure_clears_reset_state_witness :
    forgotPassword (some baseUser) "123456" false 5 =
      (.emailFailed 500 "Failed to send verification code. Please try again.",
       some { baseUser with passwordResetCode := none,
                            passwordResetExpires := none }) :=
  forgot_password_email_failure_clears_reset_state baseUser "123456" 5 rfl

/-- The hash model is collision-free. -/
theorem bcryptHash_inj {a b : String} (h : bcryptHash a = bcryptHash b) :
    a = b := by
  have hd : ("bcrypt$" ++ a).data = ("bcrypt$" ++ b).data := congrArg String.data h
  simp only [String.data_append] at hd
  exact String.ext (List.append_cancel_left hd)

/-- Comparing a plaintext against the hash of a different plaintext fails. -/
theorem bcryptCompare_hash_ne {p q : String} (h : p ≠ q) :
    bcryptCompare p (bcryptHash q) = false := by
  simp only [bcryptCompare, beq_eq_false_iff_ne, ne_eq]
  intro hc
  exact h (bcryptHash_inj hc)

/-- Comparing a plaintext against its own hash succeeds. -/
theorem bcryptCompare_hash_self (p : String) :
    bcryptCompare p (bcryptHash p) = true := by
  simp [bcryptCompare]

/-- C10: a successful `verifyResetCode` replaces the stored reset-code hash
with the hash of the freshly generated reset token (10-minute expiry), so the
original 6-digit code becomes single-use: presenting the same code again to
`verifyResetCode`, or to `resetPassword` as the token, is rejected at every
later time. -/
theorem verify_reset_code_single_use :
    ∀ (u : User) (code freshToken : String) (exp now : Nat),
      u.passwordResetCode = some (bcryptHash code) →
      u.passwordResetExpires = some exp →
      ¬ exp < now →
      freshToken ≠ code →
      verifyResetCode (some u) code now freshToken =
        (.verified freshToken,
         some { u with passwordResetCode := some (bcryptHash freshToken),
                       passwordResetExpires := some (now + 600000) }) ∧
      (∀ (now₂ : Nat) (ft₂ : String),
        (verifyResetCode
          (some { u with passwordResetCode := some (bcryptHash freshToken),
                         passwordResetExpires := some (now + 600000) })
          code now₂ ft₂).1.isVerified = false) ∧
      (∀ (now₂ : Nat) (newPassword : String),
        (resetPassword
          (some { u with passwordResetCode := some (bcryptHash freshToken),
                         passwordResetExpires := some (now + 600000) })
          code newPassword now₂).1.isDone = false) := by
  intro u code freshToken exp now hcode hexp hnotpast hne
  have hfail : bcryptCompare code (bcryptHash freshToken) = false :=
    bcryptCompare_hash_ne (Ne.symm hne)
  refine ⟨?_, ?_, ?_⟩
  · simp [verifyResetCode, hcode, hexp, hnotpast, bcryptCompare_hash_self]
  · intro now₂ ft₂
    by_cases hlate : now + 600000 < now₂ <;>
      simp [verifyResetCode, hlate, hfail, VerifyOutcome.isVerified]
  · intro now₂ newPassword
    by_cases hvalid : (validatePasswordComplexity newPassword).isValid
    · by_cases hlate : now + 600000 < now₂ <;>
        simp [resetPassword, hvalid, hlate, hfail, ResetPwOutcome.isDone]
    · simp [resetPassword, hvalid, ResetPwOutcome.isDone]

/-- C10 witness: a concrete account verifies its 6-digit code once; the same
code is afterwards rejected by `verifyResetCode` and by `resetPassword`. -/
theorem verify_reset_code_single_use_witness :
    (verifyResetCode
        (some { baseUser with passwordResetCode := some (bcryptHash "123456"),
                              passwordResetExpires := some 1000000 })
        "123456" 5 "f00dfeed" =
      (.verified "f00dfeed",
       some { baseUser with passwordResetCode := some (bcryptHash "f00dfeed"),
                            passwordResetExpires := some (5 + 600000) })) ∧
    ((verifyResetCode
        (some { baseUser with passwordResetCode := some (bcryptHash "f00dfeed"),
                              passwordResetExpires := some (5 + 600000) })
        "123456" 7 "zz").1.isVerified = false) ∧
    ((resetPassword
        (some { baseUser with passwordResetCode := some (bcryptHash "f00dfeed"),
                              passwordResetExpires := some (5 + 600000) })
        "123456" "NewSecret42!xy" 7).1.isDone = false) := by
  have h := verify_reset_code_single_use
    { baseUser with passwordResetCode := some (bcryptHash "123456"),
                    passwordResetExpires := some 1000000 }
    "123456" "f00dfeed" 1000000 5 rfl rfl (by decide) (by decide)
  exact ⟨h.1, h.2.1 7 "zz", h.2.2 7 "NewSecret42!xy"⟩

/-- A concrete TOTP verifier instantiating the opaque
`speakeasy.totp.verify` collaborator for evaluation. -/
def demoTotp (secret code : String) : Bool :=
  secret == "SECRET" && code == "000111"

/-- C4 failing input: `verifyMFA` never inspects the decoded payload's `type`
field, so a full 8-hour session token (no `mfa_pending` tag) presented as the
temporary token is accepted: with a correct TOTP code it creates a session
instead of being rejected. -/
theorem session_token_accepted_as_mfa_challenge :
    (generateToken 7 1000).typ ≠ some "mfa_pending" ∧
    verifyMFA (generateToken 7 1000) "000111" 2000
        (some { baseUser with id := 7, mfaEnabled := true,
                              mfaSecret := some "SECRET" })
        demoTotp "ip" "ag" [] =
      (.granted (generateToken 7 2000) none none,
       some { baseUser with id := 7, mfaEnabled := true,
                            mfaSecret := some "SECRET" },
       [newSessionRecord 7 "ag" "ip" 2000]) := by
  exact ⟨by decide, rfl⟩

/-- Decomposition of a successful backup-code search: the store splits at the
first unused matching entry, which is the only entry changed (marked used),
and every earlier entry is used or non-matching. -/
theorem markFirstMatch_eq_some (c : String) :
    ∀ (l l' : List BackupCode), markFirstMatch c l = some l' →
      ∃ l₁ b l₂, l = l₁ ++ b :: l₂ ∧
        l' = l₁ ++ { b with used := true } :: l₂ ∧
        b.used = false ∧ bcryptCompare (strToUpper c) b.code = true ∧
        ∀ x ∈ l₁, x.used = true ∨ bcryptCompare (strToUpper c) x.code = false := by
  intro l
  induction l with
  | nil => intro l' h; simp [markFirstMatch] at h
  | cons b rest ih =>
    intro l' h
    by_cases hb : (!b.used && bcryptCompare (strToUpper c) b.code) = true
    · rw [markFirstMatch, if_pos hb] at h
      obtain ⟨hbu, hbc⟩ := Bool.and_eq_true_iff.mp hb
      refine ⟨[], b, rest, rfl, ?_, ?_, hbc, by simp⟩
      · simpa using h.symm
      · simpa using hbu
    · rw [markFirstMatch, if_neg hb] at h
      cases hrest : markFirstMatch c rest with
      | none => rw [hrest] at h; exact absurd h (by simp)
      | some rest' =>
        rw [hrest] at h
        obtain ⟨l₁, b', l₂, hsplit, hsplit', hu, hc, hfront⟩ := ih rest' hrest
        refine ⟨b :: l₁, b', l₂, by rw [hsplit]; rfl, ?_, hu, hc, ?_⟩
        · have : l' = b :: rest' := by simpa using h.symm
          rw [this, hsplit']; rfl
        · intro x hx
          rcases List.mem_cons.mp hx with hxb | hxl
          · subst hxb
            cases hu2 : x.used with
            | true => exact Or.inl rfl
            | false =>
              cases hc2 : bcryptCompare (strToUpper c) x.code with
              | false => exact Or.inr rfl
              | true => exact absurd (by simp [hu2, hc2]) hb
          · exact hfront x hxl

/-- The backup-code search fails when every entry is used or non-matching. -/
theorem markFirstMatch_eq_none (c : String) :
    ∀ l : List BackupCode,
      (∀ x ∈ l, x.used = true ∨ bcryptCompare (strToUpper c) x.code = false) →
      markFirstMatch c l = none := by
  intro l
  induction l with
  | nil => intro _; rfl
  | cons b rest ih =>
    intro h
    have hb : (!b.used && bcryptCompare (strToUpper c) b.code) = false := by
      rcases h b (List.mem_cons_self b rest) with hu | hc
      · simp [hu]
      · simp [hc]
    rw [markFirstMatch, if_neg (by simp [hb]),
        ih fun x hx => h x (List.mem_cons_of_mem b hx)]

/-- A successful comparison pins down the stored hash. -/
theorem bcryptCompare_eq_true {p h : String} (hc : bcryptCompare p h = true) :
    h = bcryptHash p := by
  rw [bcryptCompare] at hc
  exact (beq_iff_eq.mp hc).symm

/-- When the stored hashes are pairwise distinct, a redeemed code cannot be
redeemed again: the search on the updated store fails. -/
theorem markFirstMatch_twice (c : String) (l l' : List BackupCode)
    (hnd : (l.map BackupCode.code).Nodup)
    (h : markFirstMatch c l = some l') : markFirstMatch c l' = none := by
  obtain ⟨l₁, b, l₂, hl, hl', hbu, hbc, hfront⟩ := markFirstMatch_eq_some c l l' h
  have hbcode : b.code = bcryptHash (strToUpper c) := bcryptCompare_eq_true hbc
  have hnotin : b.code ∉ l₂.map BackupCode.code := by
    rw [hl, List.map_append] at hnd
    have h2 := hnd.of_append_right
    simp only [List.map_cons, List.nodup_cons] at h2
    exact h2.1
  apply markFirstMatch_eq_none
  intro x hx
  rw [hl'] at hx
  rcases List.mem_append.mp hx with hx1 | hx2
  · exact hfront x hx1
  · rcases List.mem_cons.mp hx2 with hxb | hxl
    · exact Or.inl (by rw [hxb])
    · cases hc2 : bcryptCompare (strToUpper c) x.code with
      | false => exact Or.inr rfl
      | true =>
        have : x.code = b.code := by
          rw [bcryptCompare_eq_true hc2, hbcode]
        exact absurd (this ▸ List.mem_map_of_mem BackupCode.code hxl) hnotin

/-- The search depends on the input only through its uppercasing. -/
theorem markFirstMatch_congr (c c' : String) (h : strToUpper c = strToUpper c') :
    ∀ l : List BackupCode, markFirstMatch c l = markFirstMatch c' l := by
  intro l
  induction l with
  | nil => rfl
  | cons b rest ih => rw [markFirstMatch, markFirstMatch, h, ih]

/-- C5: with pairwise-distinct stored hashes, redeeming a backup code
succeeds at most once: a successful redemption grants a session and stores
the code list with exactly the first unused matching entry marked used, every
earlier entry being used or non-matching; a second redemption of the same
code against the updated record is rejected with the 401 authentication
error and leaves user and sessions unchanged; and the match is
case-insensitive (any input with the same uppercasing matches the same
entry). -/
theorem backup_code_single_use :
    ∀ (u : User) (tk tk₂ : AuthToken) (code : String) (now now₂ : Nat)
      (ip ag ip₂ ag₂ : String) (ss ss₂ : List Session)
      (codes' : List BackupCode),
      u.mfaEnabled = true →
      jwtVerifyOk tk now = true → jwtVerifyOk tk₂ now₂ = true →
      (u.mfaBackupCodes.map BackupCode.code).Nodup →
      markFirstMatch code u.mfaBackupCodes = some codes' →
      (∃ l₁ b l₂, u.mfaBackupCodes = l₁ ++ b :: l₂ ∧
        codes' = l₁ ++ { b with used := true } :: l₂ ∧
        b.used = false ∧ bcryptCompare (strToUpper code) b.code = true ∧
        ∀ x ∈ l₁, x.used = true ∨ bcryptCompare (strToUpper code) x.code = false) ∧
      (useBackupCode tk code now (some u) ip ag ss).1.isGranted = true ∧
      (useBackupCode tk code now (some u) ip ag ss).2.1 =
        some { u with mfaBackupCodes := codes' } ∧
      useBackupCode tk₂ code now₂ (some { u with mfaBackupCodes := codes' })
          ip₂ ag₂ ss₂ =
        (.rejected 401 "Invalid or already used backup code",
         some { u with mfaBackupCodes := codes' }, ss₂) ∧
      (∀ c₂ : String, strToUpper c₂ = strToUpper code →
        markFirstMatch c₂ u.mfaBackupCodes = some codes') := by
  intro u tk tk₂ code now now₂ ip ag ip₂ ag₂ ss ss₂ codes' hmfa htk htk₂ hnd hmatch
  have htwice : markFirstMatch code codes' = none :=
    markFirstMatch_twice code u.mfaBackupCodes codes' hnd hmatch
  refine ⟨markFirstMatch_eq_some code u.mfaBackupCodes codes' hmatch, ?_, ?_, ?_, ?_⟩
  · simp [useBackupCode, htk, hmfa, hmatch, MfaOutcome.isGranted]
  · simp [useBackupCode, htk, hmfa, hmatch]
  · simp [useBackupCode, htk₂, hmfa, htwice]
  · intro c₂ hup
    rw [markFirstMatch_congr c₂ code hup, hmatch]

/-- The fresh backup-code store of the C5 witness account. -/
def twoCodes : List BackupCode :=
  [⟨bcryptHash "AAAA1111", false⟩, ⟨bcryptHash "BBBB2222", false⟩]

/-- The same store after the first code has been redeemed. -/
def twoCodesUsed : List BackupCode :=
  [⟨bcryptHash "AAAA1111", true⟩, ⟨bcryptHash "BBBB2222", false⟩]

/-- An MFA-enabled account holding `twoCodes`. -/
def mfaBackupUser : User :=
  { baseUser with mfaEnabled := true, mfaBackupCodes := twoCodes }

/-- The same account after the first redemption. -/
def mfaBackupUserAfter : User :=
  { baseUser with mfaEnabled := true, mfaBackupCodes := twoCodesUsed }

/-- C5 witness: a concrete account with two unused backup codes redeems
`"aaaa1111"` (lower case) once; the second attempt is rejected. -/
theorem backup_code_single_use_witness :
    ((useBackupCode (mfaTempToken 1 0) "aaaa1111" 10 (some mfaBackupUser)
        "ip" "ag" []).1.isGranted = true) ∧
    ((useBackupCode (mfaTempToken 1 0) "aaaa1111" 10 (some mfaBackupUser)
        "ip" "ag" []).2.1 = some mfaBackupUserAfter) ∧
    (useBackupCode (mfaTempToken 1 0) "aaaa1111" 20 (some mfaBackupUserAfter)
        "ip2" "ag2" [] =
      (.rejected 401 "Invalid or already used backup code",
       some mfaBackupUserAfter, [])) ∧
    (markFirstMatch "AaAa1111" mfaBackupUser.mfaBackupCodes = some twoCodesUsed) := by
  have h := backup_code_single_use mfaBackupUser
    (mfaTempToken 1 0) (mfaTempToken 1 0) "aaaa1111" 10 20
    "ip" "ag" "ip2" "ag2" [] [] twoCodesUsed
    rfl (by decide) (by decide) (by decide) (by decide)
  exact ⟨h.2.1, h.2.2.1, h.2.2.2.1, h.2.2.2.2 "AaAa1111" (by decide)⟩

/-- The session kept by the fold is the argument or one of the list items. -/
theorem foldl_olderOf_mem (rest : List Session) :
    ∀ init : Session, rest.foldl olderOf init ∈ init :: rest := by
  induction rest with
  | nil => intro init; simp
  | cons b t ih =>
    intro init
    rw [List.foldl_cons]
    rcases List.mem_cons.mp (ih (olderOf init b)) with h1 | h2
    · rw [h1, olderOf]
      by_cases hc : b.createdAt < init.createdAt <;>
        simp [hc, List.mem_cons]
    · exact List.mem_cons_of_mem init (List.mem_cons_of_mem b h2)

/-- The session kept by the fold is created no later than the argument and
every list item. -/
theorem foldl_olderOf_le (rest : List Session) :
    ∀ init s, s ∈ init :: rest →
      (rest.foldl olderOf init).createdAt ≤ s.createdAt := by
  induction rest with
  | nil =>
    intro init s hs
    rw [List.mem_singleton.mp hs, List.foldl_nil]
  | cons b t ih =>
    intro init s hs
    have hle1 : (olderOf init b).createdAt ≤ init.createdAt := by
      rw [olderOf]; by_cases hc : b.createdAt < init.createdAt <;> simp [hc] <;> omega
    have hle2 : (olderOf init b).createdAt ≤ b.createdAt := by
      rw [olderOf]; by_cases hc : b.createdAt < init.createdAt <;> simp [hc] <;> omega
    rw [List.foldl_cons]
    rcases List.mem_cons.mp hs with h1 | h2
    · exact le_trans (ih (olderOf init b) _ (List.mem_cons_self _ _)) (h1 ▸ hle1)
    · rcases List.mem_cons.mp h2 with h3 | h4
      · exact le_trans (ih (olderOf init b) _ (List.mem_cons_self _ _)) (h3 ▸ hle2)
      · exact ih (olderOf init b) s (List.mem_cons_of_mem _ h4)

/-- What `oldestSession` returns: a session of the user, created no later
than every other session of the user. -/
theorem oldestSession_spec {sessions : List Session} {uid : Nat} {old : Session}
    (h : oldestSession sessions uid = some old) :
    old ∈ sessions ∧ old.userId = uid ∧
      ∀ s ∈ sessions, s.userId = uid → old.createdAt ≤ s.createdAt := by
  rw [oldestSession] at h
  cases hfl : sessions.filter (fun s => s.userId == uid) with
  | nil => rw [hfl] at h; exact absurd h (by simp)
  | cons s rest =>
    rw [hfl] at h
    have hold : old = rest.foldl olderOf s := by
      have := h; simp only [Option.some.injEq] at this; exact this.symm
    have hmemf : old ∈ sessions.filter (fun s => s.userId == uid) := by
      rw [hfl]; exact hold ▸ foldl_olderOf_mem rest s
    have hmem2 := List.mem_filter.mp hmemf
    refine ⟨hmem2.1, by simpa using hmem2.2, ?_⟩
    intro s' hs' hs'uid
    have hs'f : s' ∈ sessions.filter (fun s => s.userId == uid) :=
      List.mem_filter.mpr ⟨hs', by simpa using hs'uid⟩
    rw [hfl] at hs'f
    exact hold ▸ foldl_olderOf_le rest s s' hs'f

/-- A nonzero active count forces `oldestSession` to return a session. -/
theorem oldestSession_isSome_of_active {sessions : List Session} {uid now : Nat}
    (hcnt : getActiveSessionCount sessions uid now = 3) :
    ∃ old, oldestSession sessions uid = some old := by
  rw [getActiveSessionCount] at hcnt
  have hne : (sessions.filter fun s => s.userId == uid && sessionActive s now) ≠ [] := by
    intro hnil; rw [hnil] at hcnt; simp at hcnt
  obtain ⟨x, hxmem⟩ := List.exists_mem_of_ne_nil _ hne
  have hx := List.mem_filter.mp hxmem
  have hxuid : (x.userId == uid) = true := by
    have := hx.2; simp only [Bool.and_eq_true] at this; exact this.1
  have hxf : x ∈ sessions.filter (fun s => s.userId == uid) :=
    List.mem_filter.mpr ⟨hx.1, hxuid⟩
  rw [oldestSession]
  cases hfl : sessions.filter (fun s => s.userId == uid) with
  | nil => rw [hfl] at hxf; simp at hxf
  | cons s rest => exact ⟨rest.foldl olderOf s, rfl⟩

/-- C2 (amended): when every stored session of the identity is active and the
active count equals the cap of 3, `createSession` deletes the identity's
oldest-by-creation session — which under this hypothesis is the
least-recently-created active one — and inserts the new session, leaving
exactly 3 active sessions.  (Without the all-active hypothesis the deleted
session is still the oldest-by-creation one, active or not.) -/
theorem session_cap_eviction (sessions : List Session) (uid : Nat)
    (agent ip : String) (now : Nat)
    (hall : ∀ s ∈ sessions, s.userId = uid → sessionActive s now = true)
    (hcnt : getActiveSessionCount sessions uid now = 3) :
    ∃ old, oldestSession sessions uid = some old ∧ old ∈ sessions ∧
      old.userId = uid ∧
      (∀ s ∈ sessions, s.userId = uid → old.createdAt ≤ s.createdAt) ∧
      (createSession sessions uid agent ip now).2 =
        sessions.erase old ++ [newSessionRecord uid agent ip now] ∧
      getActiveSessionCount ((createSession sessions uid agent ip now).2) uid now = 3 := by
  obtain ⟨old, hold⟩ := oldestSession_isSome_of_active hcnt
  obtain ⟨hmem, huid, hmin⟩ := oldestSession_spec hold
  have hstore : (createSession sessions uid agent ip now).2 =
      sessions.erase old ++ [newSessionRecord uid agent ip now] := by
    simp [createSession, hcnt, maxConcurrentSessions, removeOldestSession, hold]
  refine ⟨old, hold, hmem, huid, hmin, hstore, ?_⟩
  have hpold : (old.userId == uid && sessionActive old now) = true := by
    simp [huid, hall old hmem huid]
  have hpnew : ((newSessionRecord uid agent ip now).userId == uid &&
      sessionActive (newSessionRecord uid agent ip now) now) = true := by
    simp [newSessionRecord, sessionActive, idleTimeout, maxSession]
  have hperm := (List.perm_cons_erase hmem).filter
    (fun s => s.userId == uid && sessionActive s now)
  have hlen := hperm.length_eq
  have hsplit : List.filter (fun s => s.userId == uid && sessionActive s now)
      (old :: sessions.erase old) =
      old :: List.filter (fun s => s.userId == uid && sessionActive s now)
        (sessions.erase old) := List.filter_cons_of_pos hpold
  rw [hsplit, List.length_cons] at hlen
  have hone : List.filter (fun s => s.userId == uid && sessionActive s now)
      [newSessionRecord uid agent ip now] = [newSessionRecord uid agent ip now] := by
    simp only [List.filter, hpnew]
  rw [getActiveSessionCount] at hcnt
  rw [hstore, getActiveSessionCount, List.filter_append, List.length_append, hone]
  simp only [List.length_cons, List.length_nil]
  omega

/-- A shared dummy token for the concrete session stores. -/
def demoTok : AuthToken := { userId := 1, typ := none, exp := 0 }

/-- An old, no-longer-active session of user 1 (idle- and absolute-expired at
the demo time 100000000). -/
def staleSession : Session :=
  { userId := 1, token := demoTok, userAgent := "", ipAddress := "",
    lastActivity := 0, createdAt := 0, expiresAt := 1 }

/-- An active session of user 1, created at time 1. -/
def liveSession1 : Session :=
  { userId := 1, token := demoTok, userAgent := "", ipAddress := "",
    lastActivity := 100000000, createdAt := 1, expiresAt := 100001000 }

/-- An active session of user 1, created at time 2. -/
def liveSession2 : Session :=
  { userId := 1, token := demoTok, userAgent := "", ipAddress := "",
    lastActivity := 100000000, createdAt := 2, expiresAt := 100001000 }

/-- An active session of user 1, created at time 3. -/
def liveSession3 : Session :=
  { userId := 1, token := demoTok, userAgent := "", ipAddress := "",
    lastActivity := 100000000, createdAt := 3, expiresAt := 100001000 }

/-- A store holding one stale and three active sessions of user 1. -/
def evictionDemo : List Session :=
  [staleSession, liveSession1, liveSession2, liveSession3]

/-- A store holding exactly three active sessions of user 1. -/
def capDemo : List Session := [liveSession1, liveSession2, liveSession3]

/-- C2 counterexample: with three active sessions and one older expired one,
session creation deletes the expired session — not the least-recently-created
active one — and the store ends up with four active sessions, breaking the
claimed cap. -/
theorem stale_session_absorbs_eviction :
    getActiveSessionCount evictionDemo 1 100000000 = 3 ∧
    oldestSession evictionDemo 1 = some staleSession ∧
    sessionActive staleSession 100000000 = false ∧
    getActiveSessionCount
      ((createSession evictionDemo 1 "ag" "ip" 100000000).2) 1 100000000 = 4 := by
  refine ⟨rfl, rfl, rfl, rfl⟩

/-- C2 witness: with exactly three active sessions and no others, creation
evicts the least-recently-created active session and exactly three active
sessions remain. -/
theorem session_cap_eviction_witness :
    oldestSession capDemo 1 = some liveSession1 ∧
    (createSession capDemo 1 "ag" "ip" 100000000).2 =
      capDemo.erase liveSession1 ++ [newSessionRecord 1 "ag" "ip" 100000000] ∧
    getActiveSessionCount
      ((createSession capDemo 1 "ag" "ip" 100000000).2) 1 100000000 = 3 := by
  obtain ⟨old, h1, _, _, _, h5, h6⟩ :=
    session_cap_eviction capDemo 1 "ag" "ip" 100000000 (by decide) (by decide)
  have hone : old = liveSession1 := by
    have h1' : (some liveSession1 : Option Session) = some old :=
      (show oldestSession capDemo 1 = some liveSession1 from rfl).symm.trans h1
    exact (Option.some.injEq _ _ ▸ h1').symm
  subst hone
  exact ⟨h1, h5, h6⟩

end DormAxis
